import Mathlib

/-!
Shallow embedding of the amplifier-orchestration task-queue engine.

Sources embedded here:
- the Task state machine and the Queue Store conditional-update contract
  (spec sections 4.1 and 4.2; the store itself, the tool-issue module, is
  external to this repository);
- `ForemanWorkerOrchestrator` in
  modules/amplifier-module-orchestrator-foreman-worker/amplifier_orchestrator_foreman_worker/orchestrator.py
  (lazy init, the hybrid-async polling in `execute_user_message`, the worker
  loop, `shutdown`);
- `ObserverOrchestrator` in
  modules/amplifier-module-orchestrator-observers/amplifier_module_orchestrator_observers/orchestrator.py
  (`_observer_loop`, `_get_work_state`, `shutdown`);
- `MultiContextOrchestrator` in
  modules/amplifier-module-orchestrator-multi-context/amplifier_orchestrator_multi_context/orchestrator.py
  (`execute_task`, `execute_phase`, `execute_workflow`).

Python truthiness of optional strings (`if current_state`, `or default`)
is modelled explicitly by `truthyStr`. Times are natural numbers
(milliseconds for the coordinator poll, seconds for the loop sleeps);
file modification times are naturals standing for opaque markers.
-/

/-! ## Task state machine and Queue Store (modelled from the spec) -/

/-- Task status values (spec section 4.2). -/
inductive Status where
  | «open»
  | in_progress
  | pending_user_input
  | blocked
  | closed
deriving DecidableEq, Repr

/-- The slice of a Task that the claim protocol touches. -/
structure QTask where
  id : Nat
  status : Status
  assignee : Option String
deriving DecidableEq, Repr

/-- Queue Store error taxonomy relevant to claiming (spec section 7). -/
inductive QueueError where
  | conflict
  | notFound
deriving DecidableEq, Repr

/-- Modelled from the spec: the Queue Store's conditional update
(section 4.1), `update(id, expected_status, mutation)`, which fails with
`ConflictError` when the stored status differs from `expected_status`.
The store (the external tool-issue module) is not part of this repository. -/
def QTask.condUpdate (t : QTask) (expected : Status) (mutation : QTask → QTask) :
    Except QueueError QTask :=
  if t.status = expected then Except.ok (mutation t) else Except.error QueueError.conflict

/-- Modelled from the spec: the `claim(actor)` transition of section 4.2,
`open → in_progress`, recording the actor as assignee, issued through the
conditional update so that it is atomic. -/
def QTask.claimBy (t : QTask) (actor : String) : Except QueueError QTask :=
  t.condUpdate Status.«open»
    (fun u => { u with status := Status.in_progress, assignee := some actor })

/-- A set of concurrent claim attempts on one task: because each attempt is a
single atomic conditional update, every interleaving is equivalent to running
the attempts in some serial order; `actors` is that order. Returns the final
task and the per-attempt results. -/
def runClaims (t : QTask) (actors : List String) :
    QTask × List (String × Except QueueError QTask) :=
  match actors with
  | [] => (t, [])
  | a :: rest =>
    match t.claimBy a with
    | Except.ok t' =>
      let r := runClaims t' rest
      (r.1, (a, Except.ok t') :: r.2)
    | Except.error e =>
      let r := runClaims t rest
      (r.1, (a, Except.error e) :: r.2)

/-- Whether a claim-attempt result is a success. -/
def isOkClaim (r : String × Except QueueError QTask) : Bool :=
  match r.2 with
  | Except.ok _ => true
  | Except.error _ => false

/-! ## Coordinator polling (execute_user_message, both orchestrators)

`execute_user_message` starts the delegate invocation as a background task
(`asyncio.create_task`) and then runs
`while not task.done(): await asyncio.sleep(0.1)`, retrieving the result
afterwards. `pollForResult delegate fuel t` mirrors that loop: `delegate`
says whether the background task is done (and with which result) at a given
time, `t` is the current time in milliseconds, and each poll that finds the
task unfinished sleeps 100 ms (one scheduling yield) before rechecking. -/

def pollForResult (delegate : Nat → Option String) :
    Nat → Nat → Option (Nat × String)
  | 0, _ => none
  | fuel + 1, t =>
    match delegate t with
    | some r => some (t, r)
    | none => pollForResult delegate fuel (t + 100)

/-- A delegate that completes with result `r` at time `100 * n`
(that is, after `n` poll intervals) and stays completed. -/
def delegateAt (n : Nat) (r : String) : Nat → Option String :=
  fun t => if 100 * n ≤ t then some r else none

/-! ## Python truthiness of optional strings -/

/-- Python truthiness of `str | None`: `None` and the empty string are falsy. -/
def truthyStr : Option String → Bool
  | none => false
  | some s => !(s == "")

/-! ## Observer loop (`_observer_loop` and `_get_work_state`) -/

/-- What one observer cycle did. -/
inductive CycleEvent where
  | fpFailed
  | skipped
  | reviewed (tasksCreated : Nat)
  | reviewFailed
deriving DecidableEq, Repr

/-- One iteration of the `while` body of `_observer_loop`, as a function of
the stored baseline (`last_review_state`), the outcome of
`_get_work_state` (`fp`, which may raise), and the outcome of the review
session (`review`, which may raise; on success it carries how many issues the
review created, which the code never inspects). Any exception is caught by
the `except Exception` clause: it is logged and the cycle ends with the
baseline unchanged. The review runs only when the fingerprint is truthy and
differs from the baseline; `last_review_state = current_state` executes only
after the review finished without raising. -/
def observerCycle (baseline : Option String)
    (fp : Except String (Option String)) (review : Except String Nat) :
    Option String × CycleEvent :=
  match fp with
  | Except.error _ => (baseline, CycleEvent.fpFailed)
  | Except.ok cur =>
    if truthyStr cur && cur != baseline then
      match review with
      | Except.error _ => (baseline, CycleEvent.reviewFailed)
      | Except.ok k => (cur, CycleEvent.reviewed k)
    else (baseline, CycleEvent.skipped)

/-- The observer loop over a list of cycle inputs: every cycle runs (errors
never terminate the loop), threading the baseline through. -/
def observerLoop (baseline : Option String)
    (cycles : List (Except String (Option String) × Except String Nat)) :
    Option String × List CycleEvent :=
  match cycles with
  | [] => (baseline, [])
  | c :: rest =>
    let step := observerCycle baseline c.1 c.2
    let r := observerLoop step.1 rest
    (r.1, step.2 :: r.2)

/-- Whether the executor review was invoked in a cycle (successfully or not). -/
def reviewInvoked : CycleEvent → Bool
  | CycleEvent.reviewed _ => true
  | CycleEvent.reviewFailed => true
  | CycleEvent.fpFailed => false
  | CycleEvent.skipped => false

/-- One watched file as `_get_work_state` sees it: its path and the stat
markers the code reads (`st_mtime`, `st_size`); the modification time is an
opaque natural marker. -/
structure FileEntry where
  path : String
  mtime : Nat
  size : Nat
deriving DecidableEq, Repr

/-- The state part `_get_work_state` renders for one file:
an f-string `path:mtime:size`. -/
def renderEntry (e : FileEntry) : String :=
  e.path ++ ":" ++ toString e.mtime ++ ":" ++ toString e.size

/-- `_get_work_state`, as a function of the files found under the watch
paths (in whatever order the filesystem enumerates them): render one part
per file, return `None` when there are none, otherwise sort the parts and
join them with a vertical bar. -/
def get_work_state (entries : List FileEntry) : Option String :=
  let state_parts := entries.map renderEntry
  if state_parts.isEmpty then none
  else some (String.intercalate "|" (state_parts.mergeSort (fun a b => a ≤ b)))

/-! ## Orchestrator lifecycle (ForemanWorkerOrchestrator) -/

/-- The lifecycle-relevant state of a `ForemanWorkerOrchestrator`:
the `_initialized` flag, the `_shutdown_event`, whether
`self.foreman_session` is set, how many entries `self.worker_tasks` holds,
and the configured per-worker counts (`WorkerConfig.count` for each config). -/
structure FWOrch where
  initialized : Bool
  shutdownEvent : Bool
  foremanSessionOpen : Bool
  workerTaskCount : Nat
  workerConfigCounts : List Nat
deriving DecidableEq, Repr

/-- Externally visible release actions a shutdown can perform. -/
inductive FWEffect where
  | awaitWorkers (n : Nat)
  | closeForemanSession
deriving DecidableEq, Repr

/-- `__init__`: runtime state is created empty; no session, no workers. -/
def FWOrch.construct (counts : List Nat) : FWOrch :=
  { initialized := false
  , shutdownEvent := false
  , foremanSessionOpen := false
  , workerTaskCount := 0
  , workerConfigCounts := counts }

/-- The body of `_initialize`: create and enter the foreman session, then
`_start_workers` (one task per config count), then set `_initialized`. -/
def FWOrch.initStep (s : FWOrch) : FWOrch :=
  { s with
    foremanSessionOpen := true
  , workerTaskCount := s.workerTaskCount + s.workerConfigCounts.sum
  , initialized := true }

/-- The lazy-initialization gate at the top of `execute_user_message`:
`if not self._initialized: await self._initialize()`. -/
def FWOrch.ensureInit (s : FWOrch) : FWOrch :=
  if s.initialized then s else s.initStep

/-- How a call to `execute_user_message` is dispatched. -/
inductive HandleOutcome where
  | executed
  | rejectedShutdown
deriving DecidableEq, Repr

/-- The control path of `execute_user_message` before the message runs: the
only gate is the lazy-initialization check; there is no check of the
shutdown event anywhere on this path, so the call always proceeds to
execute the message. -/
def FWOrch.handleGate (s : FWOrch) : FWOrch × HandleOutcome :=
  (s.ensureInit, HandleOutcome.executed)

/-- `ForemanWorkerOrchestrator.shutdown`: returns immediately when
`_initialized` is false; otherwise sets the shutdown event, gathers the
worker tasks when there are any, closes the foreman session when it is set
(the code clears neither `worker_tasks` nor `foreman_session`), and clears
`_initialized`. -/
def FWOrch.shutdown (s : FWOrch) : FWOrch × List FWEffect :=
  if s.initialized = false then (s, [])
  else
    ({ s with shutdownEvent := true, initialized := false }
    , (if s.workerTaskCount ≠ 0 then [FWEffect.awaitWorkers s.workerTaskCount] else [])
        ++ (if s.foremanSessionOpen then [FWEffect.closeForemanSession] else []))

/-! ## Orchestrator lifecycle (ObserverOrchestrator) -/

/-- The lifecycle-relevant state of an `ObserverOrchestrator`. -/
structure ObsOrch where
  initialized : Bool
  shutdownEvent : Bool
  mainSessionOpen : Bool
  observerTaskCount : Nat
  observerConfigCount : Nat
deriving DecidableEq, Repr

/-- Externally visible release actions a shutdown can perform. -/
inductive ObsEffect where
  | awaitObservers (n : Nat)
  | closeMainSession
deriving DecidableEq, Repr

/-- `__init__`: runtime state is created empty; no session, no observers. -/
def ObsOrch.construct (numObservers : Nat) : ObsOrch :=
  { initialized := false
  , shutdownEvent := false
  , mainSessionOpen := false
  , observerTaskCount := 0
  , observerConfigCount := numObservers }

/-- `ObserverOrchestrator._initialize`: returns at once when already
initialized; otherwise creates and enters the main session, starts one
observer task per observer config, and sets `_initialized`. -/
def ObsOrch.initStep (s : ObsOrch) : ObsOrch :=
  if s.initialized then s
  else
    { s with
      mainSessionOpen := true
    , observerTaskCount := s.observerTaskCount + s.observerConfigCount
    , initialized := true }

/-- The control path of `ObserverOrchestrator.execute_user_message` before
the message runs: it awaits `_initialize` (whose own guard makes it a no-op
after the first call) and never checks the shutdown event. -/
def ObsOrch.handleGate (s : ObsOrch) : ObsOrch × HandleOutcome :=
  (s.initStep, HandleOutcome.executed)

/-- `ObserverOrchestrator.shutdown`: set the shutdown event; when there are
observer tasks, gather them and clear the list; when the main session is
set, close it and set it to `None`; clear `_initialized`. -/
def ObsOrch.shutdown (s : ObsOrch) : ObsOrch × List ObsEffect :=
  let afterSignal : ObsOrch := { s with shutdownEvent := true }
  let withTasks : ObsOrch × List ObsEffect :=
    if afterSignal.observerTaskCount ≠ 0 then
      ({ afterSignal with observerTaskCount := 0 }
      , [ObsEffect.awaitObservers afterSignal.observerTaskCount])
    else (afterSignal, [])
  let withMain : ObsOrch × List ObsEffect :=
    if withTasks.1.mainSessionOpen then
      ({ withTasks.1 with mainSessionOpen := false }
      , withTasks.2 ++ [ObsEffect.closeMainSession])
    else withTasks
  ({ withMain.1 with initialized := false }, withMain.2)

/-! ## Worker loop timing and error handling (`_worker_loop`)

The worker loop is `while not self._shutdown_event.is_set(): body`, where the
body executes the delegate and then sleeps with a plain `asyncio.sleep(5)`
(on success and on a caught exception alike). The sleep does not watch the
event, so the loop observes the signal only at the top of a cycle.
`workerLoopExit fuel t c signal` gives the time at which the loop exits:
checks happen at times `t, t + c, t + 2 c, ...` where `c` is the length of
one full cycle (delegate execution plus the sleep), `signal` is the time the
shutdown event is set, and a check at time `u` sees the event set when
`signal ≤ u`. `fuel` bounds the number of cycles considered. -/

def workerLoopExit : Nat → Nat → Nat → Nat → Option Nat
  | 0, _, _, _ => none
  | fuel + 1, t, c, signal =>
    if signal ≤ t then some t else workerLoopExit fuel (t + c) c signal

/-- The observer loop's inter-cycle sleep,
`asyncio.wait_for(self._shutdown_event.wait(), timeout=self.observer_interval)`:
waiting from `sleepStart` for at most `interval`, the wait returns as soon as
the event is set (immediately when it was set before the sleep began) and the
loop then breaks; otherwise it times out and the loop continues. Result:
(wake-up time, whether the shutdown signal was observed during the sleep). -/
def observerSleepWake (sleepStart interval signal : Nat) : Nat × Bool :=
  if signal ≤ sleepStart + interval then (max sleepStart signal, true)
  else (sleepStart + interval, false)

/-- The delay the worker loop sleeps after a normal cycle:
`await asyncio.sleep(5)`. -/
def workerNormalDelay : Nat := 5

/-- The delay the worker loop sleeps after a caught delegate exception:
also `await asyncio.sleep(5)`, although the comment above it reads
"Longer delay on error to avoid error loops". -/
def workerErrorBackoff : Nat := 5

/-- One iteration of the worker loop body: the delegate either returns a
response or raises. An exception is caught by the per-cycle
`except Exception` handler, logged, and followed by the error backoff; in
both cases the loop continues with its next cycle. Result: (whether the loop
continues, the sleep in seconds that ends the cycle). -/
def workerCycle (execResult : Except String String) : Bool × Nat :=
  match execResult with
  | Except.ok _ => (true, workerNormalDelay)
  | Except.error _ => (true, workerErrorBackoff)

/-! ## MultiContextOrchestrator -/

/-- The fields of a task dictionary that `execute_task` reads. -/
structure MCTask where
  context_name : String
  prompt : String
  profile : Option String
deriving DecidableEq, Repr

/-- What obtaining the session and running `session.execute(prompt)` did:
either a response, or an exception (whose message `str(e)` is kept). -/
inductive ExecOutcome where
  | ok (response : String)
  | exn (msg : String)
deriving DecidableEq, Repr

/-- The result dictionary `execute_task` returns. -/
structure TaskResult where
  success : Bool
  context_name : String
  response : Option String
  error : Option String
deriving DecidableEq, Repr

/-- Python `a or b` on optional strings: `a` when truthy, else `b`
(mirrors `task_dict.get("profile") or default_profile`). -/
def pyOrElse (a b : Option String) : Option String :=
  if truthyStr a then a else b

/-- `MultiContextOrchestrator.execute_task`: resolve the profile with Python
`or`; a falsy profile returns a failure dictionary without touching the
session; otherwise the whole session path runs inside `try`, so an exception
becomes a failure dictionary with the message and a response becomes a
success dictionary. The function never propagates an exception. -/
def execute_task (task : MCTask) (default_profile : Option String)
    (outcome : ExecOutcome) : TaskResult :=
  let profile := pyOrElse task.profile default_profile
  if truthyStr profile = false then
    { success := false
    , context_name := task.context_name
    , response := none
    , error := some "No profile specified for task" }
  else
    match outcome with
    | ExecOutcome.ok r =>
      { success := true
      , context_name := task.context_name
      , response := some r
      , error := none }
    | ExecOutcome.exn e =>
      { success := false
      , context_name := task.context_name
      , response := none
      , error := some e }

/-- `execute_phase`: one result per task, in order. The sequential branch
maps `execute_task` over the tasks; the parallel branch gathers the same
calls and converts raised exceptions to error dictionaries, but
`execute_task` never raises, so both branches produce the per-task results
of `execute_task`. -/
def execute_phase (tasks : List (MCTask × ExecOutcome))
    (default_profile : Option String) : List TaskResult :=
  tasks.map fun p => execute_task p.1 default_profile p.2

/-- The inputs of one workflow run: phases of tasks, each paired with its
session outcome, plus the default profile. -/
structure WorkflowRun where
  name : String
  phases : List (List (MCTask × ExecOutcome))
  default_profile : Option String

/-- The summary dictionary `execute_workflow` returns. -/
structure WorkflowResult where
  success : Bool
  total_tasks : Nat
  successful_tasks : Nat
  failed_tasks : Nat
deriving DecidableEq, Repr

/-- `execute_workflow`: run the phases in order, count results with
`success` truthy and results without, report overall success as
`failed_tasks == 0`. -/
def execute_workflow (w : WorkflowRun) : WorkflowResult :=
  let phaseResults := w.phases.map fun ph => execute_phase ph w.default_profile
  let total := (phaseResults.map List.length).sum
  let succ := (phaseResults.map (fun rs => rs.countP (fun r => r.success))).sum
  let failed := (phaseResults.map (fun rs => rs.countP (fun r => !r.success))).sum
  { success := failed == 0
  , total_tasks := total
  , successful_tasks := succ
  , failed_tasks := failed }

/-! ## Helper lemmas -/

/-- Claim attempts on a task that is not `open` all fail with `ConflictError`
and leave the task unchanged. -/
theorem runClaims_conflict_of_ne (t : QTask) (actors : List String)
    (h : t.status ≠ Status.«open») :
    runClaims t actors =
      (t, actors.map fun a => (a, Except.error QueueError.conflict)) := by
  induction actors with
  | nil => simp [runClaims]
  | cons a rest ih =>
    simp [runClaims, QTask.claimBy, QTask.condUpdate, h, ih]

/-- Polling a delegate that completes at time `100 * n`, starting `j` polls
before that time, returns the result at exactly time `100 * n`. -/
theorem pollForResult_delegateAt (r : String) :
    ∀ (j n : Nat), j ≤ n →
      pollForResult (delegateAt n r) (j + 1) (100 * (n - j)) = some (100 * n, r) := by
  intro j
  induction j with
  | zero =>
    intro n _
    simp [pollForResult, delegateAt]
  | succ j ih =>
    intro n h
    have hnot : ¬ (100 * n ≤ 100 * (n - (j + 1))) := by omega
    have hstep : 100 * (n - (j + 1)) + 100 = 100 * (n - j) := by omega
    have := ih n (Nat.le_of_succ_le h)
    simp only [pollForResult, delegateAt, if_neg hnot]
    rw [hstep]
    exact this

/-- Every exit of the worker loop happens at a check that saw the signal, and
(except for an exit at the very first check) within one cycle length of the
signal being set. -/
theorem workerLoopExit_latency (fuel : Nat) :
    ∀ (t c signal e : Nat), workerLoopExit fuel t c signal = some e →
      signal ≤ e ∧ (e = t ∨ e < signal + c) := by
  induction fuel with
  | zero =>
    intro t c signal e h
    simp [workerLoopExit] at h
  | succ fuel ih =>
    intro t c signal e h
    by_cases hs : signal ≤ t
    · simp [workerLoopExit, hs] at h
      omega
    · simp [workerLoopExit, hs] at h
      rcases ih (t + c) c signal e h with ⟨h1, h2⟩
      exact ⟨h1, Or.inr (by omega)⟩

/-- With a positive cycle length the worker loop does exit once the signal
is set, given enough cycles. -/
theorem workerLoopExit_total (c signal : Nat) :
    ∀ (fuel t : Nat), signal ≤ t + fuel * c →
      ∃ e, workerLoopExit (fuel + 1) t c signal = some e := by
  intro fuel
  induction fuel with
  | zero =>
    intro t h
    simp at h
    exact ⟨t, by simp [workerLoopExit, h]⟩
  | succ fuel ih =>
    intro t h
    by_cases hs : signal ≤ t
    · exact ⟨t, by simp [workerLoopExit, hs]⟩
    · have hnext : signal ≤ (t + c) + fuel * c := by
        have : t + (fuel + 1) * c = (t + c) + fuel * c := by ring
        omega
      rcases ih (t + c) hnext with ⟨e, he⟩
      refine ⟨e, ?_⟩
      simp [workerLoopExit, hs]
      exact he

/-- String order used by the fingerprint sort is transitive (as a Bool). -/
theorem stringLe_trans : ∀ (a b c : String),
    (decide (a ≤ b)) = true → (decide (b ≤ c)) = true →
      (decide (a ≤ c)) = true := by
  intro a b c h1 h2
  exact decide_eq_true (le_trans (of_decide_eq_true h1) (of_decide_eq_true h2))

/-- String order used by the fingerprint sort is total (as a Bool). -/
theorem stringLe_total : ∀ (a b : String),
    (decide (a ≤ b) || decide (b ≤ a)) = true := by
  intro a b
  rcases le_total a b with h | h
  · simp [h]
  · simp [h]

/-- Sorting with `mergeSort` maps permuted string lists to the same list. -/
theorem mergeSort_eq_of_perm (l₁ l₂ : List String) (h : l₁.Perm l₂) :
    l₁.mergeSort (fun a b => a ≤ b) = l₂.mergeSort (fun a b => a ≤ b) := by
  have hs₁ := List.sorted_mergeSort stringLe_trans stringLe_total l₁
  have hs₂ := List.sorted_mergeSort stringLe_trans stringLe_total l₂
  have hp : (l₁.mergeSort (fun a b => a ≤ b)).Perm
      (l₂.mergeSort (fun a b => a ≤ b)) :=
    ((List.mergeSort_perm l₁ _).trans h).trans (List.mergeSort_perm l₂ _).symm
  have : IsAntisymm String (· ≤ ·) := ⟨fun _ _ h1 h2 => le_antisymm h1 h2⟩
  refine List.eq_of_perm_of_sorted (r := (· ≤ ·)) hp ?_ ?_
  · exact List.Pairwise.imp (fun hab => of_decide_eq_true hab) hs₁
  · exact List.Pairwise.imp (fun hab => of_decide_eq_true hab) hs₂

/-- `_get_work_state` is invariant under permutation of the enumerated files. -/
theorem get_work_state_perm (l₁ l₂ : List FileEntry) (h : l₁.Perm l₂) :
    get_work_state l₁ = get_work_state l₂ := by
  have hmap : (l₁.map renderEntry).Perm (l₂.map renderEntry) := h.map renderEntry
  have hsort := mergeSort_eq_of_perm _ _ hmap
  have hempty : (l₁.map renderEntry).isEmpty = (l₂.map renderEntry).isEmpty := by
    cases l₁ with
    | nil =>
      have := hmap.length_eq
      cases l₂ <;> simp_all
    | cons a l =>
      have := hmap.length_eq
      cases l₂ <;> simp_all
  simp only [get_work_state]
  rw [hsort, hempty]

/-! ## Claim theorems -/

/-- Claim C1: for every task in status `open` and every set of concurrent
claim attempts on it — every interleaving being a serialization order of the
atomic conditional updates — exactly the first attempt in that order
succeeds, moving the task to `in_progress` with the winner recorded as
assignee, and every other attempt fails with `ConflictError`; hence at most
one claim succeeds and no two actors both observe a successful claim. -/
theorem claim_C1_at_most_one_claim_succeeds (t : QTask) (a : String)
    (rest : List String) (h : t.status = Status.«open») :
    runClaims t (a :: rest) =
      ({ t with status := Status.in_progress, assignee := some a }
      , (a, Except.ok { t with status := Status.in_progress, assignee := some a })
          :: rest.map fun b => (b, Except.error QueueError.conflict)) ∧
    (runClaims t (a :: rest)).2.countP isOkClaim = 1 := by
  have hclaim : t.claimBy a =
      Except.ok { t with status := Status.in_progress, assignee := some a } := by
    simp [QTask.claimBy, QTask.condUpdate, h]
  have hrest := runClaims_conflict_of_ne
    { t with status := Status.in_progress, assignee := some a } rest (by simp)
  have heq : runClaims t (a :: rest) =
      ({ t with status := Status.in_progress, assignee := some a }
      , (a, Except.ok { t with status := Status.in_progress, assignee := some a })
          :: rest.map fun b => (b, Except.error QueueError.conflict)) := by
    simp [runClaims, hclaim, hrest]
  refine ⟨heq, ?_⟩
  rw [heq]
  simp [List.countP_cons, isOkClaim, List.countP_map, Function.comp]

/-- Witness for claim C1 at a concrete open task and three claimants. -/
theorem claim_C1_witness :
    (runClaims { id := 7, status := Status.«open», assignee := none }
        ["w1", "w2", "w3"]).2.countP isOkClaim = 1 :=
  (claim_C1_at_most_one_claim_succeeds
    { id := 7, status := Status.«open», assignee := none } "w1" ["w2", "w3"] rfl).2

/-- Claim C2: `execute_user_message` starts the delegate as a background
task and observes its completion by polling every 100 ms, each poll a
scheduling yield: for a delegate that completes with result `r` at the
`n`-th poll interval, the polling loop returns exactly `r`, unmodified, and
observes completion at time `100 * n`, that is, after `n` sleep yields. -/
theorem claim_C2_poll_returns_result_unmodified (n : Nat) (r : String) :
    pollForResult (delegateAt n r) (n + 1) 0 = some (100 * n, r) := by
  have := pollForResult_delegateAt r n n le_rfl
  simpa using this

/-- Claim C3: in every observer cycle the review is invoked iff the computed
fingerprint is truthy (non-`None`, non-empty) and differs from the stored
baseline; after a review completes without error the baseline is set to the
new fingerprint regardless of how many tasks were created; a fingerprinting
or review error leaves the baseline unchanged and the cycle merely records
the failure; a second cycle with the same fingerprint skips; and the loop
runs every cycle it is given — no cycle outcome terminates it. -/
theorem claim_C3_observer_cycle_contract :
    (∀ b fp rv, reviewInvoked (observerCycle b fp rv).2 = true ↔
        ∃ s, fp = Except.ok (some s) ∧ s ≠ "" ∧ some s ≠ b) ∧
    (∀ b cur k, reviewInvoked (observerCycle b (Except.ok cur) (Except.ok k)).2 = true →
        (observerCycle b (Except.ok cur) (Except.ok k)).1 = cur) ∧
    (∀ b e rv, observerCycle b (Except.error e) rv = (b, CycleEvent.fpFailed)) ∧
    (∀ b cur e, (observerCycle b (Except.ok cur) (Except.error e)).1 = b) ∧
    (∀ b rv, observerCycle b (Except.ok b) rv = (b, CycleEvent.skipped)) ∧
    (∀ b cycles, (observerLoop b cycles).2.length = cycles.length) := by
  refine ⟨?_, ?_, ?_, ?_, ?_, ?_⟩
  · intro b fp rv
    cases fp with
    | error e => simp [observerCycle, reviewInvoked]
    | ok cur =>
      cases cur with
      | none => simp [observerCycle, reviewInvoked, truthyStr]
      | some s =>
        by_cases hs : s = ""
        · subst hs
          simp [observerCycle, reviewInvoked, truthyStr]
        · by_cases hb : some s = b
          · subst hb
            simp [observerCycle, reviewInvoked, truthyStr]
          · cases rv <;>
              simp [observerCycle, reviewInvoked, truthyStr, hs, hb]
  · intro b cur k hrev
    by_cases h1 : truthyStr cur = true
    · by_cases h2 : cur = b
      · subst h2
        simp [observerCycle, reviewInvoked] at hrev
      · simp [observerCycle, h1, h2]
    · have h1f : truthyStr cur = false := by simpa using h1
      simp [observerCycle, h1f, reviewInvoked] at hrev
  · intro b e rv
    simp [observerCycle]
  · intro b cur e
    by_cases h1 : truthyStr cur = true
    · by_cases h2 : cur = b
      · subst h2
        simp [observerCycle]
      · simp [observerCycle, h1, h2]
    · have h1f : truthyStr cur = false := by simpa using h1
      simp [observerCycle, h1f]
  · intro b rv
    simp [observerCycle]
  · intro b cycles
    induction cycles generalizing b with
    | nil => simp [observerLoop]
    | cons c rest ih => simp [observerLoop, ih]

/-- Witness for claim C3 at concrete cycles: a first review on a fresh
fingerprint advances the baseline, the next cycle with the same fingerprint
skips, and a fingerprint error leaves the baseline in place. -/
theorem claim_C3_witness :
    reviewInvoked (observerCycle none (Except.ok (some "f1")) (Except.ok 0)).2 = true ∧
    (observerCycle none (Except.ok (some "f1")) (Except.ok 0)).1 = some "f1" ∧
    observerCycle (some "f1") (Except.ok (some "f1")) (Except.ok 2) =
      (some "f1", CycleEvent.skipped) ∧
    observerCycle (some "f1") (Except.error "stat failed") (Except.ok 0) =
      (some "f1", CycleEvent.fpFailed) := by
  have h := claim_C3_observer_cycle_contract
  have h1 : reviewInvoked (observerCycle none (Except.ok (some "f1")) (Except.ok 0)).2 = true :=
    (h.1 none (Except.ok (some "f1")) (Except.ok 0)).mpr
      ⟨"f1", rfl, by decide, by decide⟩
  exact ⟨h1, h.2.1 none (some "f1") 0 h1,
    h.2.2.2.2.1 (some "f1") (Except.ok 2),
    h.2.2.1 (some "f1") "stat failed" (Except.ok 0)⟩

/-- Claim C4: shutdown is idempotent for both orchestrators — a second call
finds the initialized flag cleared (foreman-worker) or the task list empty
and the session already released (observers), leaves the state exactly as
after the first call, and performs no release action — and shutdown on a
freshly constructed orchestrator (no message ever handled, no loops spawned)
completes as a total function releasing nothing. -/
theorem claim_C4_shutdown_idempotent :
    (∀ s : FWOrch, (FWOrch.shutdown (FWOrch.shutdown s).1).1 = (FWOrch.shutdown s).1 ∧
        (FWOrch.shutdown (FWOrch.shutdown s).1).2 = []) ∧
    (∀ counts, FWOrch.shutdown (FWOrch.construct counts) = (FWOrch.construct counts, [])) ∧
    (∀ s : ObsOrch, (ObsOrch.shutdown (ObsOrch.shutdown s).1).1 = (ObsOrch.shutdown s).1 ∧
        (ObsOrch.shutdown (ObsOrch.shutdown s).1).2 = []) ∧
    (∀ n, (ObsOrch.shutdown (ObsOrch.construct n)).2 = []) := by
  refine ⟨?_, ?_, ?_, ?_⟩
  · intro s
    cases hs : s.initialized <;> simp [FWOrch.shutdown, hs]
  · intro counts
    simp [FWOrch.shutdown, FWOrch.construct]
  · intro s
    rcases s with ⟨i, ev, m, otc, occ⟩
    by_cases ht : otc = 0 <;> cases m <;>
      simp [ObsOrch.shutdown, ht]
  · intro n
    simp [ObsOrch.shutdown, ObsOrch.construct]

/-- Claim C5: construction creates no session and spawns no loops; the first
`execute_user_message` call creates the session and spawns every configured
loop (one worker per configured count; one observer per configuration)
exactly once, and every later call skips initialization: the initialized
flag makes the gate a no-op. -/
theorem claim_C5_lazy_initialization :
    (∀ counts, (FWOrch.construct counts).foremanSessionOpen = false ∧
        (FWOrch.construct counts).workerTaskCount = 0 ∧
        (FWOrch.construct counts).initialized = false) ∧
    (∀ counts, (FWOrch.handleGate (FWOrch.construct counts)).1 =
        { initialized := true, shutdownEvent := false, foremanSessionOpen := true
        , workerTaskCount := counts.sum, workerConfigCounts := counts }) ∧
    (∀ s : FWOrch, s.initialized = true → FWOrch.handleGate s = (s, HandleOutcome.executed)) ∧
    (∀ s : FWOrch, (FWOrch.handleGate (FWOrch.handleGate s).1).1 = (FWOrch.handleGate s).1) ∧
    (∀ n, (ObsOrch.construct n).mainSessionOpen = false ∧
        (ObsOrch.construct n).observerTaskCount = 0 ∧
        (ObsOrch.construct n).initialized = false) ∧
    (∀ n, (ObsOrch.handleGate (ObsOrch.construct n)).1 =
        { initialized := true, shutdownEvent := false, mainSessionOpen := true
        , observerTaskCount := n, observerConfigCount := n }) ∧
    (∀ s : ObsOrch, s.initialized = true → ObsOrch.handleGate s = (s, HandleOutcome.executed)) ∧
    (∀ s : ObsOrch, (ObsOrch.handleGate (ObsOrch.handleGate s).1).1 = (ObsOrch.handleGate s).1) := by
  refine ⟨?_, ?_, ?_, ?_, ?_, ?_, ?_, ?_⟩
  · intro counts; simp [FWOrch.construct]
  · intro counts; simp [FWOrch.handleGate, FWOrch.ensureInit, FWOrch.initStep, FWOrch.construct]
  · intro s hs; simp [FWOrch.handleGate, FWOrch.ensureInit, hs]
  · intro s
    cases hs : s.initialized <;>
      simp [FWOrch.handleGate, FWOrch.ensureInit, FWOrch.initStep, hs]
  · intro n; simp [ObsOrch.construct]
  · intro n; simp [ObsOrch.handleGate, ObsOrch.initStep, ObsOrch.construct]
  · intro s hs; simp [ObsOrch.handleGate, ObsOrch.initStep, hs]
  · intro s
    cases hs : s.initialized <;>
      simp [ObsOrch.handleGate, ObsOrch.initStep, hs]

/-- Witness for claim C5: a second `execute_user_message` call on an already
initialized foreman-worker orchestrator changes nothing. -/
theorem claim_C5_witness :
    FWOrch.handleGate (FWOrch.handleGate (FWOrch.construct [2, 1])).1 =
      ((FWOrch.handleGate (FWOrch.construct [2, 1])).1, HandleOutcome.executed) :=
  claim_C5_lazy_initialization.2.2.1
    (FWOrch.handleGate (FWOrch.construct [2, 1])).1 (by decide)

/-- Claim C6 counterexample: the worker loop does not observe the shutdown
signal within one poll interval. With a 3 s delegate execution and the 5 s
sleep (cycle length 8), checks happen at times 0 and 8 only; a signal set at
time 1 is observed at time 8, a latency of 7 s, exceeding the 5 s poll
interval — because the unconditional `asyncio.sleep(5)` never checks the
event during the sleep. -/
theorem claim_C6_counterexample :
    workerLoopExit 10 0 8 1 = some 8 ∧ ¬ (8 - 1 ≤ 5) := by decide

/-- Claim C6 (amended): the observer loop does observe the shutdown signal
during its inter-cycle sleep — its timed wait on the event returns the
moment the signal is set (immediately, when the signal predates the sleep)
and the loop then exits — while the worker loop checks the signal only at
the top of each cycle and sleeps unconditionally, so its shutdown latency is
bounded by one full cycle (delegate execution plus sleep), not by the poll
interval alone. -/
theorem claim_C6_shutdown_latency :
    (∀ c signal, 1 ≤ c →
        ∃ e, workerLoopExit (signal + 1) 0 c signal = some e ∧
          signal ≤ e ∧ e ≤ signal + c) ∧
    (∀ t i signal, t ≤ signal → signal ≤ t + i →
        observerSleepWake t i signal = (signal, true)) ∧
    (∀ t i signal, signal ≤ t → observerSleepWake t i signal = (t, true)) := by
  refine ⟨?_, ?_, ?_⟩
  · intro c signal hc
    have hfuel : signal ≤ 0 + signal * c := by
      have := Nat.mul_le_mul_left signal hc
      omega
    rcases workerLoopExit_total c signal signal 0 hfuel with ⟨e, he⟩
    rcases workerLoopExit_latency (signal + 1) 0 c signal e he with ⟨h1, h2⟩
    exact ⟨e, he, h1, by omega⟩
  · intro t i signal h1 h2
    simp [observerSleepWake, h2, Nat.max_eq_right h1]
  · intro t i signal h1
    have h2 : signal ≤ t + i := le_trans h1 (Nat.le_add_right t i)
    simp [observerSleepWake, h2, Nat.max_eq_left h1]

/-- Witness for claim C6 (amended): a worker with a 3 s delegate and the 5 s
sleep exits within one full cycle of a signal set at time 4, and an observer
sleeping from time 10 with a 15 s interval wakes the moment a signal arrives
at time 12. -/
theorem claim_C6_witness :
    (∃ e, workerLoopExit 5 0 8 4 = some e ∧ 4 ≤ e ∧ e ≤ 4 + 8) ∧
    observerSleepWake 10 15 12 = (12, true) := by
  have h := claim_C6_shutdown_latency
  exact ⟨h.1 8 4 (by decide), h.2.1 10 15 12 (by decide) (by decide)⟩

/-- Claim C7: every delegate exception in a worker cycle is caught within
the cycle and the loop continues with its next cycle — no failing cycle
terminates the loop — but the sleep that follows a caught exception is the
same 5 s as the normal inter-cycle delay, not a longer backoff, although the
comment above it reads "Longer delay on error". Evaluated at the failing
input (a cycle whose delegate raises): the loop continues and sleeps exactly
`workerErrorBackoff = 5 = workerNormalDelay`. -/
theorem claim_C7_exception_caught_backoff_not_longer :
    (∀ e, workerCycle (Except.error e) = (true, 5)) ∧
    (∀ r, workerCycle (Except.ok r) = (true, 5)) ∧
    workerErrorBackoff = workerNormalDelay ∧
    ¬ workerNormalDelay < workerErrorBackoff := by
  exact ⟨fun e => rfl, fun r => rfl, rfl, by decide⟩

/-- Claim C8 counterexample: construct a foreman-worker orchestrator,
handle one message (initializing it), shut it down, then call
`execute_user_message` again. The call is executed, not rejected: the gate
sees `_initialized == False` and re-initializes the orchestrator — while the
shutdown event is still set. No `ShutdownInProgress` rejection exists. -/
theorem claim_C8_counterexample :
    (FWOrch.handleGate
        (FWOrch.shutdown (FWOrch.handleGate (FWOrch.construct [1])).1).1).2 =
      HandleOutcome.executed ∧
    (FWOrch.handleGate
        (FWOrch.shutdown (FWOrch.handleGate (FWOrch.construct [1])).1).1).1.initialized =
      true ∧
    (FWOrch.shutdown (FWOrch.handleGate (FWOrch.construct [1])).1).1.shutdownEvent =
      true := by
  decide

/-- Claim C8 (amended): after shutdown has been signaled, a further
`execute_user_message` call is not rejected — the code has no
`ShutdownInProgress` check, so every call proceeds to execution; because
shutdown cleared the initialized flag, the call re-initializes the
orchestrator (new foreman session, newly spawned workers) while leaving the
shutdown event set, and a worker loop started under an already-set signal
exits at its very first check. -/
theorem claim_C8_no_rejection_reinitializes :
    (∀ s : FWOrch, (FWOrch.handleGate s).2 = HandleOutcome.executed) ∧
    (∀ s : FWOrch, s.initialized = false →
        (FWOrch.handleGate s).1.initialized = true ∧
        (FWOrch.handleGate s).1.shutdownEvent = s.shutdownEvent) ∧
    (∀ fuel t c, workerLoopExit (fuel + 1) t c 0 = some t) := by
  refine ⟨fun s => rfl, ?_, ?_⟩
  · intro s hs
    simp [FWOrch.handleGate, FWOrch.ensureInit, FWOrch.initStep, hs]
  · intro fuel t c
    simp [workerLoopExit]

/-- Witness for claim C8 (amended) on a concrete post-shutdown state. -/
theorem claim_C8_witness :
    (FWOrch.handleGate
        (FWOrch.shutdown (FWOrch.initStep (FWOrch.construct [1]))).1).1.initialized =
      true := by
  have h := claim_C8_no_rejection_reinitializes
  exact (h.2.1 (FWOrch.shutdown (FWOrch.initStep (FWOrch.construct [1]))).1 (by decide)).1

/-- Claim C9: the fingerprint computed by `_get_work_state` is
order-independent — any two enumerations of the same `(path, mtime, size)`
entries yield equal digests — it is `None` exactly when no watched file
exists, and the observer cycle consumes it only through an equality test
against the previous baseline (a truthy fingerprint is skipped iff it equals
the baseline). -/
theorem claim_C9_fingerprint_order_independent :
    (∀ l₁ l₂ : List FileEntry, l₁.Perm l₂ → get_work_state l₁ = get_work_state l₂) ∧
    (∀ l : List FileEntry, get_work_state l = none ↔ l = []) ∧
    (∀ b cur rv, (observerCycle b (Except.ok cur) rv).2 = CycleEvent.skipped ↔
        (truthyStr cur = false ∨ cur = b)) := by
  refine ⟨get_work_state_perm, ?_, ?_⟩
  · intro l
    cases l <;> simp [get_work_state]
  · intro b cur rv
    by_cases h1 : truthyStr cur = true
    · by_cases h2 : cur = b
      · subst h2
        simp [observerCycle, h1]
      · cases rv <;> simp [observerCycle, h1, h2]
    · have h1f : truthyStr cur = false := by simpa using h1
      simp [observerCycle, h1f]

/-- Witness for claim C9: two opposite enumerations of the same two files
produce the same digest. -/
theorem claim_C9_witness :
    get_work_state
        [{ path := "work/a.py", mtime := 1, size := 10 }
        , { path := "work/b.py", mtime := 2, size := 20 }] =
      get_work_state
        [{ path := "work/b.py", mtime := 2, size := 20 }
        , { path := "work/a.py", mtime := 1, size := 10 }] :=
  claim_C9_fingerprint_order_independent.1 _ _
    (List.Perm.swap (FileEntry.mk "work/b.py" 2 20)
      (FileEntry.mk "work/a.py" 1 10) [])

/-- Claim C10: `execute_task` is total over executor outcomes — a falsy
resolved profile yields the no-profile failure dictionary whatever the
session would have done, a session exception yields a failure dictionary
carrying the message, and a response yields a success dictionary carrying
the response unchanged — and `execute_workflow` reports overall success true
iff every task result in every phase has success true. -/
theorem claim_C10_execute_task_total_workflow_success :
    (∀ t dp oc, truthyStr (pyOrElse t.profile dp) = false →
        execute_task t dp oc =
          { success := false, context_name := t.context_name, response := none
          , error := some "No profile specified for task" }) ∧
    (∀ t dp r, truthyStr (pyOrElse t.profile dp) = true →
        execute_task t dp (ExecOutcome.ok r) =
          { success := true, context_name := t.context_name, response := some r
          , error := none }) ∧
    (∀ t dp e, truthyStr (pyOrElse t.profile dp) = true →
        execute_task t dp (ExecOutcome.exn e) =
          { success := false, context_name := t.context_name, response := none
          , error := some e }) ∧
    (∀ w, (execute_workflow w).success = true ↔
        ∀ ph ∈ w.phases, ∀ p ∈ ph,
          (execute_task p.1 w.default_profile p.2).success = true) := by
  refine ⟨?_, ?_, ?_, ?_⟩
  · intro t dp oc h
    simp [execute_task, h]
  · intro t dp r h
    simp [execute_task, h]
  · intro t dp e h
    simp [execute_task, h]
  · intro w
    simp only [execute_workflow, execute_phase, beq_iff_eq]
    rw [List.sum_eq_zero_iff]
    constructor
    · intro h ph hph p hp
      have hcount := h _ (List.mem_map_of_mem _ (List.mem_map_of_mem _ hph))
      have := List.countP_eq_zero.mp hcount
        (execute_task p.1 w.default_profile p.2) (List.mem_map_of_mem _ hp)
      simpa using this
    · intro h x hx
      rcases List.mem_map.mp hx with ⟨rs, hrs, rfl⟩
      rcases List.mem_map.mp hrs with ⟨ph, hph, rfl⟩
      apply List.countP_eq_zero.mpr
      intro r hr
      rcases List.mem_map.mp hr with ⟨p, hp, rfl⟩
      simpa using h ph hph p hp

/-- Witness for claim C10: a task with no profile and no default fails with
the no-profile message even though the session would have succeeded. -/
theorem claim_C10_witness :
    execute_task { context_name := "ctx", prompt := "do it", profile := none }
        none (ExecOutcome.ok "resp") =
      { success := false, context_name := "ctx", response := none
      , error := some "No profile specified for task" } := by
  have h := claim_C10_execute_task_total_workflow_success
  exact h.1 { context_name := "ctx", prompt := "do it", profile := none }
    none (ExecOutcome.ok "resp") (by decide)
